import Mathlib

/-!
Shallow embedding of the distributional-RL core of the rltf repository
(files rltf/models/c51.py, rltf/agents/dqn_agent.py, rltf/monitoring/stats.py).
Machine floats are modelled by exact rationals, and per-sample (per batch row)
computations are modelled directly, since every batched tensor op used by the
source acts independently on each batch row.
-/

/-! ## C51 model: support parameters and the categorical projection
(rltf/models/c51.py) -/

/-- Static configuration of the C51 model: histogram bin count `N`, value
range bounds and discount factor, as stored by C51.__init__
(c51.py lines 9-26). -/
structure C51Params where
  N : ℕ
  Vmin : ℚ
  Vmax : ℚ
  gamma : ℚ
  deriving Repr, DecidableEq

/-- Bin width: self.dz = (V_max - V_min) / float(N - 1) (c51.py line 26). -/
def C51Params.dz (p : C51Params) : ℚ := (p.Vmax - p.Vmin) / ((p.N : ℚ) - 1)

/-- Value of the j-th histogram bin: bins = arange(0, N) * dz + V_min
(c51.py lines 36-37). -/
def C51Params.binVal (p : C51Params) (j : ℕ) : ℚ := (j : ℚ) * p.dz + p.Vmin

/-- The full support as a list: the tensor self.bins (c51.py line 38). -/
def C51Params.binsList (p : C51Params) : List ℚ := (List.range p.N).map p.binVal

/-- tf.clip_by_value(x, lo, hi) = min(max(x, lo), hi). -/
def clipByValue (x lo hi : ℚ) : ℚ := min (max x lo) hi

/-- Shifted and clipped value of source atom j for one batch row:
target_bins = rew_t + gamma * done_mask * bins, then clipped to
[V_min, V_max] (c51.py lines 90-95); done_mask = cast(not done). -/
def targetBinVal (p : C51Params) (r : ℚ) (done : Bool) (j : ℕ) : ℚ :=
  clipByValue (r + p.gamma * (if done then 0 else 1) * p.binVal j) p.Vmin p.Vmax

/-- Continuous bin coordinate bin_inds = (target_bins - V_min) / dz
(c51.py line 98). -/
def binInd (p : C51Params) (r : ℚ) (done : Bool) (j : ℕ) : ℚ :=
  (targetBinVal p r done j - p.Vmin) / p.dz

/-- One row of the categorical projection of C51._compute_target
(c51.py lines 97-126).  Output bin k accumulates, over all source atoms j,
lo_add_j = target_z_j * (ceil(b_j) - b_j) when floor(b_j) = k and
hi_add_j = target_z_j * (b_j - floor(b_j)) when ceil(b_j) = k, reproducing
the two scatter_nd_add ops into the zeroed accumulator variable. -/
def projRow (p : C51Params) (r : ℚ) (done : Bool) (t : List ℚ) : List ℚ :=
  (List.range p.N).map (fun k =>
    ((List.range p.N).map (fun j =>
      (if ⌊binInd p r done j⌋ = (k : ℤ) then
        t.getD j 0 * ((⌈binInd p r done j⌉ : ℚ) - binInd p r done j) else 0) +
      (if ⌈binInd p r done j⌉ = (k : ℤ) then
        t.getD j 0 * (binInd p r done j - (⌊binInd p r done j⌋ : ℚ)) else 0))).sum)

/-- Expected value of one action's distribution against the support:
one entry of target_q = reduce_sum(target_z * self.bins, axis=-1)
(c51.py line 84). -/
def expQ (d bins : List ℚ) : ℚ := (List.zipWith (fun a b => a * b) d bins).sum

/-- First-maximum fold: carries the best index and best value seen so far and
replaces them only on a strictly larger value, so ties keep the lowest
index, as tf.argmax does. -/
def argmaxGo (bi : ℕ) (bv : ℚ) (i : ℕ) : List ℚ → ℕ
  | [] => bi
  | x :: xs => if bv < x then argmaxGo i x (i + 1) xs else argmaxGo bi bv (i + 1) xs

/-- tf.argmax over one row: index of the first maximal entry. -/
def argmaxIdx : List ℚ → ℕ
  | [] => 0
  | x :: xs => argmaxGo 0 x 1 xs

/-- Greedy bootstrap action of C51._compute_target (c51.py lines 84-85):
argmax over actions of the mass-weighted atom sum of the target network
distribution at the next state. -/
def c51SelectAction (targetNet : List (List ℚ)) (bins : List ℚ) : ℕ :=
  argmaxIdx (targetNet.map (fun d => expQ d bins))

/-- Bootstrap action of C51TS._compute_target (c51.py lines 185-189):
agent_q = reduce_mean(agent_z * self.bins, axis=-1) over the online (agent)
network evaluated at the next state, then argmax.  reduce_mean divides the
elementwise-product sum by the static length N of the reduced axis. -/
def tsSelectAction (agentNet : List (List ℚ)) (bins : List ℚ) (N : ℕ) : ℕ :=
  argmaxIdx (agentNet.map (fun d => expQ d bins / (N : ℚ)))

/-- One batch row of C51._compute_target end to end (c51.py lines 80-126):
select the greedy action from the target network, take that action's
distribution and project it onto the support. -/
def computeTargetRow (p : C51Params) (targetNet : List (List ℚ)) (r : ℚ) (done : Bool) :
    List ℚ :=
  projRow p r done (targetNet.getD (c51SelectAction targetNet p.binsList) [])

/-- One row of the projection part of C51TS._compute_target
(c51.py lines 193-227); the source code of that block is a verbatim copy of
the projection in C51._compute_target (c51.py lines 89-126). -/
def projRowTS (p : C51Params) (r : ℚ) (done : Bool) (t : List ℚ) : List ℚ :=
  (List.range p.N).map (fun k =>
    ((List.range p.N).map (fun j =>
      (if ⌊binInd p r done j⌋ = (k : ℤ) then
        t.getD j 0 * ((⌈binInd p r done j⌉ : ℚ) - binInd p r done j) else 0) +
      (if ⌈binInd p r done j⌉ = (k : ℤ) then
        t.getD j 0 * (binInd p r done j - (⌊binInd p r done j⌋ : ℚ)) else 0))).sum)

/-- The concrete support of the spec's end-to-end scenario:
N = 3, V_min = 0, V_max = 2, gamma = 1, so dz = 1 and bins = [0, 1, 2]. -/
def p3 : C51Params := { N := 3, Vmin := 0, Vmax := 2, gamma := 1 }

/-! ## Exploration policy (rltf/agents/dqn_agent.py, AgentDQN._action_train) -/

/-- AgentDQN._action_train (dqn_agent.py lines 101-109) with the single
uniform draw from [0,1) made explicit: if the draw is strictly below
epsilon, return the uniformly sampled action, else the network's greedy
action. -/
def actionTrain (epsilon draw : ℚ) (randomAct greedyAct : ℕ) : ℕ :=
  if draw < epsilon then randomAct else greedyAct

/-! ## Constructor validation (dqn_agent.py, c51.py, stats.py) -/

/-- The two assert statements guarding AgentDQN.__init__
(dqn_agent.py lines 37-38), on the type tags of the two gym spaces. -/
def agentDQNInitChecks (obsSpaceIsBox actSpaceIsDiscrete : Bool) : Except String Unit :=
  if ¬ obsSpaceIsBox then Except.error "observation_space is not a gym.spaces.Box"
  else if ¬ actSpaceIsDiscrete then Except.error "action_space is not a gym.spaces.Discrete"
  else Except.ok ()

/-- The state built by C51.__init__ (c51.py lines 9-29).  The constructor
performs no validation of V_min, V_max or N: it only stores them and
computes dz. -/
structure C51Model where
  N : ℕ
  Vmin : ℚ
  Vmax : ℚ
  gamma : ℚ
  dz : ℚ
  deriving Repr, DecidableEq

/-- C51.__init__ (c51.py lines 9-29): total, never raises. -/
def c51Init (gamma Vmin Vmax : ℚ) (N : ℕ) : C51Model :=
  { N := N, Vmin := Vmin, Vmax := Vmax, gamma := gamma,
    dz := (Vmax - Vmin) / ((N : ℚ) - 1) }

/-! ## StatsRecorder (rltf/monitoring/stats.py) -/

/-- The runtime-statistics dictionary created by define_log_info
(stats.py lines 121-135).  float nan values (undefined means) are modelled
as none and -inf as the bottom element of WithBot. -/
structure RunStats where
  mean_ep_rew : Option ℚ
  mean_ep_len : Option ℚ
  best_mean_rew : WithBot ℚ
  best_ep_rew : WithBot ℚ
  ep_last_stats : ℕ
  deriving DecidableEq

/-- The member data of StatsRecorder relevant to mode handling and runtime
statistics (stats.py lines 19-51 and 121-135). -/
structure StatsRecorderState where
  mode : String
  n_ep_stats : ℕ
  train_ep_rews : List ℚ
  train_ep_lens : List ℚ
  eval_ep_rews : List ℚ
  eval_ep_lens : List ℚ
  train_stats : RunStats
  eval_stats : RunStats
  deriving DecidableEq

/-- Initial value of both stats dictionaries (stats.py lines 121-135). -/
def initRunStats : RunStats :=
  { mean_ep_rew := none, mean_ep_len := none,
    best_mean_rew := ⊥, best_ep_rew := ⊥, ep_last_stats := 0 }

/-- StatsRecorder.__init__ (stats.py lines 19-55): the mode argument is
stored into the private attribute directly (line 51: self._mode = mode),
bypassing the validating property setter, so any string is accepted. -/
def statsRecorderInit (mode : String) (n_ep_stats : ℕ) : StatsRecorderState :=
  { mode := mode, n_ep_stats := n_ep_stats,
    train_ep_rews := [], train_ep_lens := [],
    eval_ep_rews := [], eval_ep_lens := [],
    train_stats := initRunStats, eval_stats := initRunStats }

/-- The message of the error raised by the mode setter (stats.py line 66). -/
def invalidModeMsg : String := "Invalid mode: must be t for training or e for evaluation"

/-- The mode property setter (stats.py lines 63-67): raise on a string other
than t or e, otherwise assign.  The returned pair is the recorder state
after the call together with the raised error, if any; the raise happens
before the assignment, so on error the state is returned unchanged. -/
def setMode (s : StatsRecorderState) (m : String) : StatsRecorderState × Option String :=
  if m ∉ (["t", "e"] : List String) then (s, some invalidModeMsg)
  else ({ s with mode := m }, none)

/-- Python slice data[-n:] as used by _stats_mean (stats.py line 166):
the last n elements for n > 0, the whole list for n = 0. -/
def lastSlice (n : ℕ) (data : List ℚ) : List ℚ :=
  if n = 0 then data else data.drop (data.length - n)

/-- StatsRecorder._stats_mean (stats.py lines 164-167): mean of the last
n_ep_stats entries, or nan (modelled none) for an empty list. -/
def statsMean (n : ℕ) (data : List ℚ) : Option ℚ :=
  if 0 < data.length then
    some ((lastSlice n data).sum / ((lastSlice n data).length : ℚ))
  else none

/-- The local helper _stats_max of _compute_runtime_stats
(stats.py lines 173-176): max of data[i:], or -inf when that slice is
empty.  List.maximum returns exactly this in WithBot. -/
def statsMax (data : List ℚ) (i : ℕ) : WithBot ℚ := (data.drop i).maximum

/-- Python max(a, b) on two non-nan floats: b if a < b else a. -/
def pymax2 (a b : WithBot ℚ) : WithBot ℚ := if a < b then b else a

/-- Python max(old, cand) where cand may be nan (modelled none): any
comparison with nan is false, so max returns the first argument. -/
def pymaxNan (old : WithBot ℚ) (cand : Option ℚ) : WithBot ℚ :=
  match cand with
  | none => old
  | some c => if old < (c : ℚ) then (c : ℚ) else old

/-- StatsRecorder._compute_runtime_stats (stats.py lines 170-193); the
trailing wall-clock throughput bookkeeping (lines 195-201) reads the real
time clock and touches no statistics field, so it is not modelled. -/
def computeRuntimeStats (s : StatsRecorderState) : StatsRecorderState :=
  { s with
    train_stats :=
      { mean_ep_rew := statsMean s.n_ep_stats s.train_ep_rews,
        mean_ep_len := statsMean s.n_ep_stats s.train_ep_lens,
        best_mean_rew :=
          pymaxNan s.train_stats.best_mean_rew (statsMean s.n_ep_stats s.train_ep_rews),
        best_ep_rew :=
          pymax2 s.train_stats.best_ep_rew
            (statsMax s.train_ep_rews s.train_stats.ep_last_stats),
        ep_last_stats := s.train_ep_rews.length },
    eval_stats :=
      { mean_ep_rew := statsMean s.n_ep_stats s.eval_ep_rews,
        mean_ep_len := statsMean s.n_ep_stats s.eval_ep_lens,
        best_mean_rew :=
          pymaxNan s.eval_stats.best_mean_rew (statsMean s.n_ep_stats s.eval_ep_rews),
        best_ep_rew :=
          pymax2 s.eval_stats.best_ep_rew
            (statsMax s.eval_ep_rews s.eval_stats.ep_last_stats),
        ep_last_stats := s.eval_ep_rews.length } }

/-! ## Helper lemmas -/

/-- The three bin coordinates of the scenario reward 1/2, done = False. -/
lemma binInd_p3_half_0 : binInd p3 (1/2) false 0 = 1/2 := by
  norm_num [binInd, targetBinVal, clipByValue, C51Params.binVal, C51Params.dz, p3]

lemma binInd_p3_half_1 : binInd p3 (1/2) false 1 = 3/2 := by
  norm_num [binInd, targetBinVal, clipByValue, C51Params.binVal, C51Params.dz, p3]

lemma binInd_p3_half_2 : binInd p3 (1/2) false 2 = 2 := by
  norm_num [binInd, targetBinVal, clipByValue, C51Params.binVal, C51Params.dz, p3]

/-- With done = True and reward 0 every atom is shifted to V_min = 0. -/
lemma binInd_p3_done (j : ℕ) : binInd p3 0 true j = 0 := by
  norm_num [binInd, targetBinVal, clipByValue, C51Params.binVal, C51Params.dz, p3]

/-- With done = False and reward 0 atom j keeps coordinate j (j < 3). -/
lemma binInd_p3_zero_0 : binInd p3 0 false 0 = 0 := by
  norm_num [binInd, targetBinVal, clipByValue, C51Params.binVal, C51Params.dz, p3]

lemma binInd_p3_zero_1 : binInd p3 0 false 1 = 1 := by
  norm_num [binInd, targetBinVal, clipByValue, C51Params.binVal, C51Params.dz, p3]

lemma binInd_p3_zero_2 : binInd p3 0 false 2 = 2 := by
  norm_num [binInd, targetBinVal, clipByValue, C51Params.binVal, C51Params.dz, p3]

/-- With reward 2 every shifted atom exceeds V_max = 2 or hits it, and all
three are clipped to coordinate 2. -/
lemma binInd_p3_two (j : ℕ) (hj : j < 3) : binInd p3 2 false j = 2 := by
  interval_cases j <;>
    norm_num [binInd, targetBinVal, clipByValue, C51Params.binVal, C51Params.dz, p3]

lemma range_three : List.range 3 = [0, 1, 2] := rfl

lemma floor_half : (⌊(1/2 : ℚ)⌋ : ℤ) = 0 := by norm_num

lemma ceil_half : (⌈(1/2 : ℚ)⌉ : ℤ) = 1 := by norm_num [Int.ceil_eq_iff]

lemma floor_three_half : (⌊(3/2 : ℚ)⌋ : ℤ) = 1 := by norm_num

lemma ceil_three_half : (⌈(3/2 : ℚ)⌉ : ℤ) = 2 := by norm_num [Int.ceil_eq_iff]

/-- Evaluation of the projection row at the spec's end-to-end scenario. -/
lemma projRow_p3_half : projRow p3 (1/2) false [0, 1, 0] = [0, 1/2, 1/2] := by
  simp only [projRow, show p3.N = 3 from rfl, range_three, List.map_cons, List.map_nil,
    List.sum_cons, List.sum_nil, binInd_p3_half_0, binInd_p3_half_1, binInd_p3_half_2,
    floor_half, ceil_half, floor_three_half, ceil_three_half,
    List.getD_cons_zero, List.getD_cons_succ]
  norm_num

/-- Evaluation at reward 0, done = True: every atom lands exactly on bin 0,
floor = ceil there, and both scattered additions are zero, so the whole
mass is dropped. -/
lemma projRow_p3_done : projRow p3 0 true [0, 1, 0] = [0, 0, 0] := by
  simp only [projRow, show p3.N = 3 from rfl, range_three, List.map_cons, List.map_nil,
    List.sum_cons, List.sum_nil, binInd_p3_done,
    List.getD_cons_zero, List.getD_cons_succ]
  norm_num

/-- Evaluation at reward 0, done = False: every atom lands exactly on its own
bin and all mass is dropped. -/
lemma projRow_p3_zero : projRow p3 0 false [0, 1, 0] = [0, 0, 0] := by
  simp only [projRow, show p3.N = 3 from rfl, range_three, List.map_cons, List.map_nil,
    List.sum_cons, List.sum_nil, binInd_p3_zero_0, binInd_p3_zero_1, binInd_p3_zero_2,
    List.getD_cons_zero, List.getD_cons_succ]
  norm_num

/-- Evaluation at reward 2, done = False: every shifted atom is clipped to
V_max, lands exactly on the topmost bin, and is dropped. -/
lemma projRow_p3_two : projRow p3 2 false [0, 1, 0] = [0, 0, 0] := by
  simp only [projRow, show p3.N = 3 from rfl, range_three, List.map_cons, List.map_nil,
    List.sum_cons, List.sum_nil, binInd_p3_two 0 (by norm_num),
    binInd_p3_two 1 (by norm_num), binInd_p3_two 2 (by norm_num),
    List.getD_cons_zero, List.getD_cons_succ]
  norm_num

/-! ## Claim theorems: concrete projection scenarios -/

/-- C1: the claim says every projected row sums to 1 for every valid input
distribution.  The code drops the mass of any atom whose bin coordinate is
exactly an integer (floor = ceil there makes both scattered additions
zero).  At reward 0 with done = True all atoms land exactly on bin 0 and
the returned row of _compute_target sums to 0, not 1. -/
theorem C1_row_sum_zero_at_integer_coordinates :
    ([0, 1, 0] : List ℚ).sum = 1 ∧
    projRow p3 0 true [0, 1, 0] = [0, 0, 0] ∧
    (projRow p3 0 true [0, 1, 0]).sum = 0 := by
  refine ⟨by norm_num, projRow_p3_done, ?_⟩
  rw [projRow_p3_done]; norm_num

/-- C2: the claim says an atom whose coordinate b_i is exactly an integer k
contributes its full mass to bin k.  In the code lo = hi = b_i there, so
lo_add = target_z * (hi - b) = 0 and hi_add = target_z * (b - lo) = 0, and
the atom contributes nothing at all: with all mass on the atom at
coordinate exactly 1, the projected row is [0, 0, 0] instead of
[0, 1, 0]. -/
theorem C2_integer_coordinate_mass_dropped :
    binInd p3 0 false 1 = 1 ∧
    projRow p3 0 false [0, 1, 0] = [0, 0, 0] := by
  exact ⟨binInd_p3_zero_1, projRow_p3_zero⟩

/-- C3: the shifted value is indeed clamped to V_max (targetBinVal at
reward 2 is 2, not wrapped), but the clamped atom then has bin coordinate
exactly N - 1 = 2, floor = ceil, and its mass is dropped: the topmost bin
of the projection receives 0, exactly as much as in the unshifted
(reward 0) projection, so its mass does not strictly increase. -/
theorem C3_clipped_mass_not_added_to_top_bin :
    targetBinVal p3 2 false 1 = 2 ∧
    (projRow p3 2 false [0, 1, 0]).getD 2 0 = 0 ∧
    (projRow p3 0 false [0, 1, 0]).getD 2 0 = 0 := by
  refine ⟨?_, ?_, ?_⟩
  · norm_num [targetBinVal, clipByValue, C51Params.binVal, C51Params.dz, p3]
  · rw [projRow_p3_two]; rfl
  · rw [projRow_p3_zero]; rfl

/-- C5: the spec's end-to-end scenario, run through the full
_compute_target row (greedy action selection over the single action, then
projection): support [0, 1, 2], bootstrap distribution [0, 1, 0],
reward 1/2, gamma 1, done False gives shifted atom Tz = 3/2, bin
coordinate b = 3/2, and output [0, 1/2, 1/2]. -/
theorem C5_end_to_end_scenario :
    targetBinVal p3 (1/2) false 1 = 3/2 ∧
    binInd p3 (1/2) false 1 = 3/2 ∧
    computeTargetRow p3 [[0, 1, 0]] (1/2) false = [0, 1/2, 1/2] := by
  refine ⟨?_, binInd_p3_half_1, ?_⟩
  · norm_num [targetBinVal, clipByValue, C51Params.binVal, C51Params.dz, p3]
  · have hbins : p3.binsList = [0, 1, 2] := by
      norm_num [C51Params.binsList, C51Params.binVal, C51Params.dz, p3, range_three]
    have hsel : c51SelectAction [[0, 1, 0]] p3.binsList = 0 := by
      simp [c51SelectAction, hbins, expQ, argmaxIdx, argmaxGo]
    simp only [computeTargetRow, hsel, List.getD_cons_zero]
    exact projRow_p3_half

/-! ## C4: with done = True the projected row depends only on the reward -/

/-- With done = True the discount term gamma * done_mask * bins is zero, so
every atom's coordinate is the same constant. -/
def doneB (p : C51Params) (r : ℚ) : ℚ := (clipByValue r p.Vmin p.Vmax - p.Vmin) / p.dz

lemma binInd_done (p : C51Params) (r : ℚ) (j : ℕ) : binInd p r true j = doneB p r := by
  simp [binInd, targetBinVal, doneB]

lemma sum_map_getD (t : List ℚ) :
    ((List.range t.length).map (fun j => t.getD j 0)).sum = t.sum := by
  induction t with
  | nil => simp
  | cons a t ih =>
    have hcomp : ((fun j => (a :: t).getD j 0) ∘ Nat.succ) = fun j => t.getD j 0 := by
      funext j
      simp [List.getD_cons_succ]
    rw [List.length_cons, List.range_succ_eq_map, List.map_cons, List.map_map, hcomp,
      List.sum_cons, ih, List.getD_cons_zero, List.sum_cons]

/-- With done = True the projected row is the per-bin interpolation
coefficient of the single constant coordinate, scaled by the total mass of
the input distribution. -/
lemma projRow_done_eq (p : C51Params) (r : ℚ) (t : List ℚ) (ht : t.length = p.N) :
    projRow p r true t = (List.range p.N).map (fun k =>
      t.sum * ((if ⌊doneB p r⌋ = (k : ℤ) then (⌈doneB p r⌉ : ℚ) - doneB p r else 0) +
               (if ⌈doneB p r⌉ = (k : ℤ) then doneB p r - (⌊doneB p r⌋ : ℚ) else 0))) := by
  unfold projRow
  refine List.map_congr_left fun k _ => ?_
  have hterm : ∀ j : ℕ,
      ((if ⌊binInd p r true j⌋ = (k : ℤ) then
          t.getD j 0 * ((⌈binInd p r true j⌉ : ℚ) - binInd p r true j) else 0) +
       (if ⌈binInd p r true j⌉ = (k : ℤ) then
          t.getD j 0 * (binInd p r true j - (⌊binInd p r true j⌋ : ℚ)) else 0)) =
      t.getD j 0 *
        ((if ⌊doneB p r⌋ = (k : ℤ) then (⌈doneB p r⌉ : ℚ) - doneB p r else 0) +
         (if ⌈doneB p r⌉ = (k : ℤ) then doneB p r - (⌊doneB p r⌋ : ℚ) else 0)) := by
    intro j
    rw [binInd_done]
    split_ifs <;> ring
  calc ((List.range p.N).map fun j =>
          (if ⌊binInd p r true j⌋ = (k : ℤ) then
            t.getD j 0 * ((⌈binInd p r true j⌉ : ℚ) - binInd p r true j) else 0) +
          (if ⌈binInd p r true j⌉ = (k : ℤ) then
            t.getD j 0 * (binInd p r true j - (⌊binInd p r true j⌋ : ℚ)) else 0)).sum
      = ((List.range p.N).map fun j => t.getD j 0 *
          ((if ⌊doneB p r⌋ = (k : ℤ) then (⌈doneB p r⌉ : ℚ) - doneB p r else 0) +
           (if ⌈doneB p r⌉ = (k : ℤ) then doneB p r - (⌊doneB p r⌋ : ℚ) else 0))).sum := by
        exact congrArg List.sum (List.map_congr_left fun j _ => hterm j)
    _ = ((List.range p.N).map fun j => t.getD j 0).sum *
          ((if ⌊doneB p r⌋ = (k : ℤ) then (⌈doneB p r⌉ : ℚ) - doneB p r else 0) +
           (if ⌈doneB p r⌉ = (k : ℤ) then doneB p r - (⌊doneB p r⌋ : ℚ) else 0)) := by
        exact List.sum_map_mul_right (List.range p.N) (fun j => t.getD j 0) _
    _ = t.sum *
          ((if ⌊doneB p r⌋ = (k : ℤ) then (⌈doneB p r⌉ : ℚ) - doneB p r else 0) +
           (if ⌈doneB p r⌉ = (k : ℤ) then doneB p r - (⌊doneB p r⌋ : ℚ) else 0)) := by
        rw [← ht, sum_map_getD]

/-- C4: with done = True the discount term is gated to zero, so the
projected row is a function of the reward alone: two bootstrap
distributions of the right length, each summing to 1, produce identical
projected rows. -/
theorem C4_done_row_depends_only_on_reward (p : C51Params) (r : ℚ) (t t2 : List ℚ)
    (ht : t.length = p.N) (ht2 : t2.length = p.N)
    (hs : t.sum = 1) (hs2 : t2.sum = 1) :
    projRow p r true t = projRow p r true t2 := by
  rw [projRow_done_eq p r t ht, projRow_done_eq p r t2 ht2, hs, hs2]

/-- Witness for C4 at the concrete support p3, reward 1/2, and the
distributions [0, 1, 0] and [1/2, 0, 1/2]. -/
theorem C4_witness :
    ([0, 1, 0] : List ℚ).length = p3.N ∧ ([1/2, 0, 1/2] : List ℚ).length = p3.N ∧
    ([0, 1, 0] : List ℚ).sum = 1 ∧ ([1/2, 0, 1/2] : List ℚ).sum = 1 ∧
    projRow p3 (1/2) true [0, 1, 0] = projRow p3 (1/2) true [1/2, 0, 1/2] :=
  ⟨rfl, rfl, by norm_num, by norm_num,
    C4_done_row_depends_only_on_reward p3 (1/2) [0, 1, 0] [1/2, 0, 1/2]
      rfl rfl (by norm_num) (by norm_num)⟩

/-! ## C6: double-network action selection and shared projection math -/

lemma argmaxGo_map_div (c : ℚ) (hc : 0 < c) :
    ∀ (xs : List ℚ) (bi i : ℕ) (bv : ℚ),
      argmaxGo bi (bv / c) i (xs.map (fun x => x / c)) = argmaxGo bi bv i xs := by
  intro xs
  induction xs with
  | nil => intro bi i bv; rfl
  | cons x xs ih =>
    intro bi i bv
    simp only [List.map_cons, argmaxGo, div_lt_div_iff_of_pos_right hc]
    by_cases h : bv < x
    · simp only [if_pos h, ih]
    · simp only [if_neg h, ih]

/-- Dividing every entry of a row by the same positive constant does not
change the index tf.argmax returns. -/
lemma argmaxIdx_map_div (l : List ℚ) (c : ℚ) (hc : 0 < c) :
    argmaxIdx (l.map (fun x => x / c)) = argmaxIdx l := by
  cases l with
  | nil => rfl
  | cons x xs =>
    simp only [List.map_cons, argmaxIdx]
    exact argmaxGo_map_div c hc xs 0 1 x

/-- C6: C51TS._compute_target selects the bootstrap action as the argmax
over actions of reduce_mean(agent_z * bins), which equals the argmax of the
mass-weighted atom sum (expected value) of the online network's
distribution at the next state; C51._compute_target selects the argmax of
the target network's own expected values; and the projection code of the
two variants is the identical function of the selected distribution. -/
theorem C6_double_selection_and_shared_projection
    (agentNet targetNet : List (List ℚ)) (bins : List ℚ) (N : ℕ) (hN : 0 < N) :
    tsSelectAction agentNet bins N = argmaxIdx (agentNet.map (fun d => expQ d bins)) ∧
    c51SelectAction targetNet bins = argmaxIdx (targetNet.map (fun d => expQ d bins)) ∧
    ∀ (p : C51Params) (r : ℚ) (done : Bool) (t : List ℚ),
      projRowTS p r done t = projRow p r done t := by
  refine ⟨?_, rfl, fun p r done t => rfl⟩
  have hcast : (0 : ℚ) < (N : ℚ) := by exact_mod_cast hN
  have hmap : agentNet.map (fun d => expQ d bins / (N : ℚ)) =
      (agentNet.map (fun d => expQ d bins)).map (fun q => q / (N : ℚ)) := by
    rw [List.map_map]; rfl
  rw [tsSelectAction, hmap, argmaxIdx_map_div _ _ hcast]

/-- Witness for C6 with two actions, support [0, 1] and N = 2: the online
network prefers action 1, and the selections and shared projection agree as
the theorem states. -/
theorem C6_witness :
    tsSelectAction [[1, 0], [0, 1]] [0, 1] 2 =
      argmaxIdx ([[1, 0], [0, 1]].map (fun d => expQ d [0, 1])) ∧
    c51SelectAction [[1, 0], [0, 1]] [0, 1] =
      argmaxIdx ([[1, 0], [0, 1]].map (fun d => expQ d [0, 1])) ∧
    ∀ (p : C51Params) (r : ℚ) (done : Bool) (t : List ℚ),
      projRowTS p r done t = projRow p r done t :=
  C6_double_selection_and_shared_projection [[1, 0], [0, 1]] [[1, 0], [0, 1]] [0, 1] 2
    (by norm_num)

/-! ## C7: epsilon-greedy exploration -/

/-- C7: for a uniform draw in [0,1): with epsilon = 0 the draw is never
strictly below epsilon, so the greedy action is always returned; with
epsilon = 1 the draw is always strictly below epsilon, so the random action
is always returned; and in general the random action is returned exactly
when the draw is strictly below epsilon. -/
theorem C7_epsilon_greedy (draw : ℚ) (randomAct greedyAct : ℕ)
    (h0 : 0 ≤ draw) (h1 : draw < 1) :
    actionTrain 0 draw randomAct greedyAct = greedyAct ∧
    actionTrain 1 draw randomAct greedyAct = randomAct ∧
    ∀ epsilon : ℚ, actionTrain epsilon draw randomAct greedyAct =
      if draw < epsilon then randomAct else greedyAct := by
  refine ⟨?_, ?_, fun epsilon => rfl⟩
  · exact if_neg (not_lt.mpr h0)
  · exact if_pos h1

/-- Witness for C7 at the concrete draw 1/2. -/
theorem C7_witness :
    (0 : ℚ) ≤ 1/2 ∧ (1/2 : ℚ) < 1 ∧
    actionTrain 0 (1/2) 4 7 = 7 ∧
    actionTrain 1 (1/2) 4 7 = 4 ∧
    ∀ epsilon : ℚ, actionTrain epsilon (1/2) 4 7 = if (1/2 : ℚ) < epsilon then 4 else 7 :=
  ⟨by norm_num, by norm_num,
    (C7_epsilon_greedy (1/2) 4 7 (by norm_num) (by norm_num)).1,
    (C7_epsilon_greedy (1/2) 4 7 (by norm_num) (by norm_num)).2.1,
    (C7_epsilon_greedy (1/2) 4 7 (by norm_num) (by norm_num)).2.2⟩

/-! ## C8: constructor validation -/

/-- C8 counterexample: the claim says an invalid mode string and
V_min >= V_max both make construction fail, but both constructions
succeed.  StatsRecorder.__init__ stores the invalid mode string unchanged
(it assigns the private attribute directly, bypassing the validating
setter), and C51.__init__ accepts V_min = 2 > V_max = 0, silently
producing a negative bin width dz = -1. -/
theorem C8_counterexample_constructors_accept_invalid_config :
    (statsRecorderInit "x" 100).mode = "x" ∧
    c51Init 1 2 0 3 = { N := 3, Vmin := 2, Vmax := 0, gamma := 1, dz := -1 } := by
  refine ⟨rfl, ?_⟩
  simp only [c51Init, C51Model.mk.injEq]
  norm_num

/-- C8 (amended): only the agent constructor validates its configuration:
AgentDQN.__init__ fails by assertion exactly when the observation space is
not a Box or the action space is not Discrete; the StatsRecorder
constructor stores any mode string without validation, and C51.__init__
accepts any V_min, V_max (including V_min >= V_max) without error. -/
theorem C8_amended_only_agent_constructor_validates (b d : Bool) (m : String) (n : ℕ)
    (g lo hi : ℚ) (N : ℕ) :
    ((agentDQNInitChecks b d = Except.ok ()) ↔ (b = true ∧ d = true)) ∧
    (statsRecorderInit m n).mode = m ∧
    (c51Init g lo hi N).Vmin = lo ∧ (c51Init g lo hi N).Vmax = hi := by
  refine ⟨?_, rfl, rfl, rfl⟩
  cases b <;> cases d <;> simp [agentDQNInitChecks]

/-- Witness for the amended C8 at a concrete non-Box observation space,
invalid mode string and inverted support bounds. -/
theorem C8_amended_witness :
    ((agentDQNInitChecks false true = Except.ok ()) ↔ (false = true ∧ true = true)) ∧
    (statsRecorderInit "x" 100).mode = "x" ∧
    (c51Init 1 2 0 3).Vmin = 2 ∧ (c51Init 1 2 0 3).Vmax = 0 :=
  C8_amended_only_agent_constructor_validates false true "x" 100 1 2 0 3

/-! ## C9: mode setter validation and error atomicity -/

/-- C9: assigning the mode property any string other than t or e raises
(the returned error is some message) and leaves the stored mode unchanged
(the returned state is the input state: the raise precedes the
assignment); assigning t or e succeeds, returns no error and sets the
stored mode to that string. -/
theorem C9_mode_setter_atomic (s : StatsRecorderState) (m : String) :
    (¬ (m = "t" ∨ m = "e") → setMode s m = (s, some invalidModeMsg)) ∧
    ((m = "t" ∨ m = "e") → setMode s m = ({ s with mode := m }, none)) := by
  have hmem : m ∈ (["t", "e"] : List String) ↔ (m = "t" ∨ m = "e") := by
    simp [List.mem_cons]
  constructor
  · intro h
    have hnot : m ∉ (["t", "e"] : List String) := by rw [hmem]; exact h
    rw [setMode, if_pos hnot]
  · intro h
    have hyes : ¬ m ∉ (["t", "e"] : List String) := by rw [hmem]; exact not_not_intro h
    rw [setMode, if_neg hyes]

/-- Witness for C9: on the freshly constructed recorder, setting mode "x"
errors and leaves the state unchanged, while setting mode "e" succeeds. -/
theorem C9_witness :
    ¬ (("x" : String) = "t" ∨ ("x" : String) = "e") ∧
    setMode (statsRecorderInit "t" 100) "x" = (statsRecorderInit "t" 100, some invalidModeMsg) ∧
    setMode (statsRecorderInit "t" 100) "e" =
      ({ statsRecorderInit "t" 100 with mode := "e" }, none) :=
  ⟨by decide, (C9_mode_setter_atomic (statsRecorderInit "t" 100) "x").1 (by decide),
    (C9_mode_setter_atomic (statsRecorderInit "t" 100) "e").2 (Or.inr rfl)⟩

/-! ## C10: best-so-far statistics are monotone under _compute_runtime_stats -/

lemma le_pymaxNan (old : WithBot ℚ) (cand : Option ℚ) : old ≤ pymaxNan old cand := by
  cases cand with
  | none => exact le_refl old
  | some c =>
    simp only [pymaxNan]
    split
    · exact le_of_lt (by assumption)
    · exact le_refl old

lemma le_pymax2 (a b : WithBot ℚ) : a ≤ pymax2 a b := by
  simp only [pymax2]
  split
  · exact le_of_lt (by assumption)
  · exact le_refl a

/-- C10: one call of _compute_runtime_stats never decreases any of the four
best-so-far statistics: each is replaced only by the Python max of its
previous value and a freshly computed candidate.  The state s is
universally quantified over all field contents, so along any sequence of
calls, with arbitrary episode bookkeeping between them, every adjacent
pair of recorded best values is related by <=, i.e. the best values are
monotonically non-decreasing across the whole sequence. -/
theorem C10_best_stats_monotone (s : StatsRecorderState) :
    s.train_stats.best_mean_rew ≤ (computeRuntimeStats s).train_stats.best_mean_rew ∧
    s.train_stats.best_ep_rew ≤ (computeRuntimeStats s).train_stats.best_ep_rew ∧
    s.eval_stats.best_mean_rew ≤ (computeRuntimeStats s).eval_stats.best_mean_rew ∧
    s.eval_stats.best_ep_rew ≤ (computeRuntimeStats s).eval_stats.best_ep_rew := by
  refine ⟨?_, ?_, ?_, ?_⟩ <;>
    simp only [computeRuntimeStats] <;>
    first
      | exact le_pymaxNan _ _
      | exact le_pymax2 _ _
